import Mathlib

/-!
Shallow embedding of the Harvia Xenio WiFi client
(`src/mcp_server/harvia_api.py`) and of the tool layer
(`src/mcp_server/server.py`).

Python JSON values are modelled by `JValue`; Python dicts by association
lists with last-write-wins lookup (so the splat merge `a ++ b` has the
semantics of Python `\x7b**a, **b\x7d`).  Network effects (HTTP GET/POST,
the Cognito sign-in and token-renewal exchanges, and `json.loads`) are
modelled by a deterministic oracle record `Env`; the mutable fields of a
`HarviaClient` instance, instrumented with a count of sign-in exchanges
and a trace of issued GraphQL requests, form `ClientState`.
-/

namespace Harvia

/-- Python/JSON values as decoded by `json.loads` / produced by `resp.json()`.
Integers and floats are kept apart because Python keeps them apart
(`str(70)` vs `str(70.0)`); floats are modelled by rationals. -/
inductive JValue where
  | null
  | bool (b : Bool)
  | int (n : Int)
  | float (q : Rat)
  | str (s : String)
  | arr (xs : List JValue)
  | obj (fields : List (String × JValue))
deriving Repr, BEq

/-- A Python dict, as an insertion-ordered association list.  Later
entries override earlier ones on lookup, so list concatenation models the
dict-splat merge. -/
abbrev PyDict := List (String × JValue)

/-- Dict lookup: the value of the LAST entry with the given key (Python
splat semantics: a later write wins). -/
def PyDict.get (d : PyDict) (k : String) : Option JValue :=
  (d.reverse.find? (fun p => p.1 == k)).map (·.2)

/-- Python truthiness of a JSON value (`bool(v)`). -/
def pyTruthy : JValue → Bool
  | .null => false
  | .bool b => b
  | .int n => n != 0
  | .float q => q != 0
  | .str s => s != ""
  | .arr xs => !xs.isEmpty
  | .obj fs => !fs.isEmpty

/-- An apostrophe character, used by the Python `repr` of strings. -/
def squote : String := String.singleton (Char.ofNat 39)

/-- `str()` of a Python float.  Integral floats render as `n.0` like
Python; the decimal rendering of non-integral floats is simplified (the
program never takes `str()` of a non-integral float). -/
def pyStrFloat (q : Rat) : String :=
  if q.den == 1 then toString q.num ++ ".0" else toString q

mutual

/-- Python `repr` of a JSON value (string escaping inside `repr` of a
string is not modelled). -/
def pyRepr : JValue → String
  | .null => "None"
  | .bool true => "True"
  | .bool false => "False"
  | .int n => toString n
  | .float q => pyStrFloat q
  | .str s => squote ++ s ++ squote
  | .arr xs => "[" ++ pyReprList xs ++ "]"
  | .obj fs => "\x7b" ++ pyReprFields fs ++ "\x7d"

/-- Comma-separated `repr`s of the elements of a Python list. -/
def pyReprList : List JValue → String
  | [] => ""
  | [x] => pyRepr x
  | x :: y :: rest => pyRepr x ++ ", " ++ pyReprList (y :: rest)

/-- Comma-separated `repr`s of the entries of a Python dict. -/
def pyReprFields : List (String × JValue) → String
  | [] => ""
  | [(k, v)] => squote ++ k ++ squote ++ ": " ++ pyRepr v
  | (k, v) :: p :: rest =>
      squote ++ k ++ squote ++ ": " ++ pyRepr v ++ ", " ++ pyReprFields (p :: rest)

end

/-- Python `str()` of a JSON value (as applied to `status_codes` in
`_format_status`): identical to `repr` except on strings. -/
def pyStr : JValue → String
  | .str s => s
  | v => pyRepr v

mutual

/-- `json.dumps` of a JSON value (string escaping not modelled). -/
def jdumps : JValue → String
  | .null => "null"
  | .bool true => "true"
  | .bool false => "false"
  | .int n => toString n
  | .float q => pyStrFloat q
  | .str s => "\"" ++ s ++ "\""
  | .arr xs => "[" ++ jdumpsList xs ++ "]"
  | .obj fs => "\x7b" ++ jdumpsFields fs ++ "\x7d"

/-- Comma-separated `json.dumps` of list elements. -/
def jdumpsList : List JValue → String
  | [] => ""
  | [x] => jdumps x
  | x :: y :: rest => jdumps x ++ ", " ++ jdumpsList (y :: rest)

/-- Comma-separated `json.dumps` of dict entries. -/
def jdumpsFields : List (String × JValue) → String
  | [] => ""
  | [(k, v)] => "\"" ++ k ++ "\": " ++ jdumps v
  | (k, v) :: p :: rest =>
      "\"" ++ k ++ "\": " ++ jdumps v ++ ", " ++ jdumpsFields (p :: rest)

end

/-- The Python exceptions the embedded code can raise, by kind. -/
inductive PyErr where
  | http
  | jsonDecode
  | typeError
  | keyError (k : String)
  | indexError
  | valueError (msg : String)
  | authError
deriving Repr, BEq

/-- `v[k]` on a JSON value: key lookup on a dict, `KeyError` when the key
is absent, `TypeError` when the value is not a dict. -/
def pySubscript (v : JValue) (k : String) : Except PyErr JValue :=
  match v with
  | .obj fields =>
      match PyDict.get fields k with
      | some x => .ok x
      | none => .error (.keyError k)
  | _ => .error .typeError

/-- `v[k1][k2]`. -/
def pySubscript2 (v : JValue) (k1 k2 : String) : Except PyErr JValue := do
  let w ← pySubscript v k1
  pySubscript w k2

/-- View a JSON value as a dict, failing with `TypeError` otherwise (the
check Python performs at a `**v` splat or an item assignment). -/
def asObj : JValue → Except PyErr (List (String × JValue))
  | .obj fs => .ok fs
  | _ => .error .typeError

/-- The Cognito token triple captured into `self._token_data`. -/
structure TokenTriple where
  access_token : String
  refresh_token : String
  id_token : String
deriving Repr, BEq, DecidableEq

/-- A GraphQL POST as issued by `HarviaClient._post`: target URL, headers,
and the JSON body. -/
structure HttpRequest where
  url : JValue
  headers : List (String × String)
  body : JValue
deriving Repr, BEq

/-- Deterministic oracle for the effectful collaborators of the client:
discovery GETs, the Cognito sign-in (`Cognito.authenticate`) and renewal
(`Cognito.check_token(renew=True)`) exchanges, GraphQL POSTs, and
`json.loads` on embedded string payloads. -/
structure Env where
  endpointResp : String → Except PyErr JValue
  signIn : Except PyErr TokenTriple
  renew : TokenTriple → Except PyErr TokenTriple
  http : HttpRequest → Except PyErr JValue
  loads : String → Except PyErr JValue

/-- The mutable fields of a `HarviaClient` instance, instrumented with a
count of sign-in exchanges performed and the trace of GraphQL POSTs
issued. -/
structure ClientState where
  sessionOpen : Bool
  endpoints : Option (List (String × JValue))
  tokenData : Option TokenTriple
  signInCount : Nat
  requests : List HttpRequest
deriving Repr, BEq

/-- The state of a freshly constructed `HarviaClient`. -/
def initState : ClientState :=
  { sessionOpen := false, endpoints := none, tokenData := none,
    signInCount := 0, requests := [] }

/-- The four service names fetched by `_fetch_endpoints`, in order. -/
def serviceNames : List String := ["users", "device", "events", "data"]

/-- The loop body of `_fetch_endpoints`: fetch each service descriptor in
order and accumulate it into the directory; a failure stops the loop,
returning the entries accumulated so far together with the error. -/
def fetchLoop (env : Env) (acc : List (String × JValue)) :
    List String → List (String × JValue) × Except PyErr Unit
  | [] => (acc, .ok ())
  | n :: rest =>
      match env.endpointResp n with
      | .ok v => fetchLoop env (acc ++ [(n, v)]) rest
      | .error e => (acc, .error e)

/-- `HarviaClient._fetch_endpoints`: sets `self._endpoints = \x7b\x7d`,
then fills it one service at a time; an exception part-way leaves the
entries fetched so far in place. -/
def fetchEndpoints (env : Env) (s : ClientState) :
    ClientState × Except PyErr Unit :=
  let (eps, r) := fetchLoop env [] serviceNames
  ({ s with endpoints := some eps }, r)

/-- `HarviaClient._authenticate`: a no-op when `self._token_data` is
already set; otherwise performs one Cognito sign-in exchange and, on
success, captures the token triple. -/
def authenticate (env : Env) (s : ClientState) :
    ClientState × Except PyErr Unit :=
  match s.tokenData with
  | some _ => (s, .ok ())
  | none =>
      match env.signIn with
      | .ok t =>
          ({ s with tokenData := some t, signInCount := s.signInCount + 1 },
           .ok ())
      | .error e =>
          ({ s with signInCount := s.signInCount + 1 }, .error e)

/-- `HarviaClient._refresh_tokens`: authenticate if needed, then
`check_token(renew=True)` and rebuild `self._token_data` from the Cognito
client. -/
def refreshTokens (env : Env) (s : ClientState) :
    ClientState × Except PyErr Unit :=
  let (s1, r1) := authenticate env s
  match r1 with
  | .error e => (s1, .error e)
  | .ok () =>
      match s1.tokenData with
      | none => (s1, .error .authError)
      | some t =>
          match env.renew t with
          | .ok t2 => ({ s1 with tokenData := some t2 }, .ok ())
          | .error e => (s1, .error e)

/-- `HarviaClient._id_token`: refresh, then read
`self._token_data["id_token"]`. -/
def idToken (env : Env) (s : ClientState) :
    ClientState × Except PyErr String :=
  let (s1, r) := refreshTokens env s
  match r with
  | .error e => (s1, .error e)
  | .ok () =>
      match s1.tokenData with
      | some t => (s1, .ok t.id_token)
      | none => (s1, .error (.keyError "id_token"))

/-- `HarviaClient._post`: obtain a fresh identity token, resolve the
endpoint URL from the directory, POST the query with an `authorization`
header carrying the raw token, and return the decoded JSON body. -/
def post (env : Env) (s : ClientState) (endpointKey : String)
    (query : JValue) : ClientState × Except PyErr JValue :=
  let (s1, rt) := idToken env s
  match rt with
  | .error e => (s1, .error e)
  | .ok token =>
      match s1.endpoints with
      | none => (s1, .error .typeError)
      | some eps =>
          match PyDict.get eps endpointKey with
          | none => (s1, .error (.keyError endpointKey))
          | some desc =>
              match pySubscript desc "endpoint" with
              | .error e => (s1, .error e)
              | .ok url =>
                  let req : HttpRequest :=
                    { url := url, headers := [("authorization", token)],
                      body := query }
                  let s2 := { s1 with requests := s1.requests ++ [req] }
                  match env.http req with
                  | .ok body => (s2, .ok body)
                  | .error e => (s2, .error e)

/-- `HarviaClient.connect`: open the HTTP session, discover endpoints,
then authenticate. -/
def connect (env : Env) (s : ClientState) : ClientState × Except PyErr Unit :=
  let s0 := { s with sessionOpen := true }
  let (s1, r1) := fetchEndpoints env s0
  match r1 with
  | .error e => (s1, .error e)
  | .ok () => authenticate env s1

/-- `v[0]` on a JSON value: first element of a list (IndexError when
empty), first character of a string; an integer key misses every entry of
a string-keyed dict (KeyError); `TypeError` otherwise. -/
def pyIndex0 : JValue → Except PyErr JValue
  | .arr (x :: _) => .ok x
  | .arr [] => .error .indexError
  | .str s =>
      match s.data with
      | c :: _ => .ok (.str (String.singleton c))
      | [] => .error .indexError
  | .obj _ => .error (.keyError "0")
  | _ => .error .typeError

/-- The GraphQL text of the `getDeviceTree` query. -/
def treeQueryString : String := "query Query \x7b\n  getDeviceTree\n\x7d\n"

/-- The GraphQL text of the `getDeviceState` query. -/
def stateQueryString : String :=
  "query Query($deviceId: ID!) \x7b\n" ++
  "  getDeviceState(deviceId: $deviceId) \x7b\n" ++
  "    desired\n    reported\n    timestamp\n    __typename\n" ++
  "  \x7d\n\x7d\n"

/-- The GraphQL text of the `getLatestData` query. -/
def latestQueryString : String :=
  "query Query($deviceId: String!) \x7b\n" ++
  "  getLatestData(deviceId: $deviceId) \x7b\n" ++
  "    deviceId\n    timestamp\n    sessionId\n    type\n    data\n" ++
  "    __typename\n" ++
  "  \x7d\n\x7d\n"

/-- The `getDeviceTree` query body built by `list_devices`. -/
def treeQuery : JValue :=
  .obj [("operationName", .str "Query"),
        ("variables", .obj []),
        ("query", .str treeQueryString)]

/-- The `getDeviceState` query body built by `get_device_state`. -/
def stateQuery (deviceId : JValue) : JValue :=
  .obj [("operationName", .str "Query"),
        ("variables", .obj [("deviceId", deviceId)]),
        ("query", .str stateQueryString)]

/-- The `getLatestData` query body built by `get_latest_data`. -/
def latestQuery (deviceId : JValue) : JValue :=
  .obj [("operationName", .str "Query"),
        ("variables", .obj [("deviceId", deviceId)]),
        ("query", .str latestQueryString)]

/-- The `requestStateChange` mutation body built by `send_state_change`:
the `state` variable is the `json.dumps` of the partial-state payload. -/
def mutationQuery (deviceId : JValue) (payload : JValue) : JValue :=
  .obj [("operationName", .str "Mutation"),
        ("variables", .obj [("deviceId", deviceId),
                            ("state", .str (jdumps payload)),
                            ("getFullState", .bool false)]),
        ("query", .str ("mutation Mutation($deviceId: ID!, $state: AWSJSON!, $getFullState: Boolean) \x7b\n" ++
          "  requestStateChange(deviceId: $deviceId, state: $state, getFullState: $getFullState)\n" ++
          "\x7d\n"))]

/-- `json.loads` applied to a response field: requires the field to be a
string (Python raises `TypeError` otherwise), then decodes it. -/
def loadsField (env : Env) (v : JValue) : Except PyErr JValue :=
  match v with
  | .str payload => env.loads payload
  | _ => .error .typeError

/-- `HarviaClient.get_device_state`: POST the state query and decode the
JSON-encoded `reported` field of the result. -/
def get_device_state (env : Env) (s : ClientState) (deviceId : JValue) :
    ClientState × Except PyErr JValue :=
  let (s1, r) := post env s "device" (stateQuery deviceId)
  match r with
  | .error e => (s1, .error e)
  | .ok resp =>
      match pySubscript2 resp "data" "getDeviceState" with
      | .error e => (s1, .error e)
      | .ok item =>
          match pySubscript item "reported" with
          | .error e => (s1, .error e)
          | .ok rep => (s1, loadsField env rep)

/-- `HarviaClient.get_latest_data`: POST the telemetry query, decode the
JSON-encoded `data` field, then inject the envelope's `timestamp` and
`type` into the decoded mapping (overwriting same-named keys). -/
def get_latest_data (env : Env) (s : ClientState) (deviceId : JValue) :
    ClientState × Except PyErr (List (String × JValue)) :=
  let (s1, r) := post env s "data" (latestQuery deviceId)
  match r with
  | .error e => (s1, .error e)
  | .ok resp =>
      match pySubscript2 resp "data" "getLatestData" with
      | .error e => (s1, .error e)
      | .ok item =>
          match pySubscript item "data" with
          | .error e => (s1, .error e)
          | .ok dataField =>
              match loadsField env dataField with
              | .error e => (s1, .error e)
              | .ok dataV =>
                  match asObj dataV with
                  | .error e => (s1, .error e)
                  | .ok fields =>
                      match pySubscript item "timestamp" with
                      | .error e => (s1, .error e)
                      | .ok ts =>
                          match pySubscript item "type" with
                          | .error e => (s1, .error e)
                          | .ok ty =>
                              (s1, .ok (fields ++ [("timestamp", ts), ("type", ty)]))

/-- The merged device record `\x7b**state, **latest, "deviceId": device_id\x7d`
built by `list_devices` and by the `get_sauna_status` tool: with
last-write-wins lookup, concatenation in this order is the splat merge. -/
def mergeDevice (state latest : List (String × JValue)) (deviceId : JValue) :
    List (String × JValue) :=
  state ++ latest ++ [("deviceId", deviceId)]

/-- The per-device loop of `list_devices`: for each child node of the
first root, read its name, fetch state and telemetry, and merge. -/
def listLoop (env : Env) (s : ClientState) :
    List JValue → ClientState × Except PyErr (List PyDict)
  | [] => (s, .ok [])
  | node :: rest =>
      match pySubscript2 node "i" "name" with
      | .error e => (s, .error e)
      | .ok deviceId =>
          let (s1, r1) := get_device_state env s deviceId
          match r1 with
          | .error e => (s1, .error e)
          | .ok stateV =>
              let (s2, r2) := get_latest_data env s1 deviceId
              match r2 with
              | .error e => (s2, .error e)
              | .ok latest =>
                  match asObj stateV with
                  | .error e => (s2, .error e)
                  | .ok state =>
                      let merged := mergeDevice state latest deviceId
                      match listLoop env s2 rest with
                      | (s3, .error e) => (s3, .error e)
                      | (s3, .ok ds) => (s3, .ok (merged :: ds))

/-- `HarviaClient.list_devices`: fetch and decode the device tree; an
empty (falsy) tree yields `[]`; otherwise enumerate the children of the
first root and fetch/merge each device. -/
def list_devices_api (env : Env) (s : ClientState) :
    ClientState × Except PyErr (List PyDict) :=
  let (s1, r) := post env s "device" treeQuery
  match r with
  | .error e => (s1, .error e)
  | .ok treeResp =>
      match pySubscript2 treeResp "data" "getDeviceTree" with
      | .error e => (s1, .error e)
      | .ok treeField =>
          match loadsField env treeField with
          | .error e => (s1, .error e)
          | .ok treeData =>
              if pyTruthy treeData then
                match pyIndex0 treeData with
                | .error e => (s1, .error e)
                | .ok root =>
                    match pySubscript root "c" with
                    | .error e => (s1, .error e)
                    | .ok childrenV =>
                        match childrenV with
                        | .arr children => listLoop env s1 children
                        | _ => (s1, .error .typeError)
              else (s1, .ok [])

/-- `HarviaClient.send_state_change`: POST the mutation and return the raw
response. -/
def send_state_change (env : Env) (s : ClientState) (deviceId : JValue)
    (payload : JValue) : ClientState × Except PyErr JValue :=
  post env s "device" (mutationQuery deviceId payload)

/-- Python `round(x)` to the nearest integer, ties to even (banker's
rounding), on exact rationals. -/
def pyRound (q : Rat) : Int :=
  let f : Int := ⌊q⌋
  let frac : Rat := q - (f : Rat)
  if frac < 1/2 then f
  else if 1/2 < frac then f + 1
  else if f % 2 = 0 then f else f + 1

/-- `server._f_to_c`: `round((fahrenheit - 32) * 5 / 9)`. -/
def f_to_c (fahrenheit : Rat) : Int :=
  pyRound ((fahrenheit - 32) * 5 / 9)

/-- Python `round(x, 1)`: one-decimal rounding, ties to even (the
float-representation effects of CPython's two-argument `round` are not
modelled). -/
def pyRound1 (q : Rat) : Rat :=
  (pyRound (q * 10) : Rat) / 10

/-- `server._c_to_f`: `round(celsius * 9 / 5 + 32, 1)`. -/
def c_to_f (celsius : Rat) : Rat :=
  pyRound1 (celsius * 9 / 5 + 32)

/-- A JSON value as a Python number, as required by the arithmetic in
`_c_to_f` (bools are ints in Python; other types raise `TypeError`). -/
def pyToRat : JValue → Except PyErr Rat
  | .int n => .ok (n : Rat)
  | .float q => .ok q
  | .bool b => .ok (if b then 1 else 0)
  | _ => .error .typeError

/-- `device.get(k)`: the stored value, or `None` when the key is absent. -/
def jGet (d : PyDict) (k : String) : JValue :=
  (PyDict.get d k).getD .null

/-- `device.get(k)` under an `is not None` guard: a stored JSON `null`
behaves exactly like an absent key. -/
def optField (d : PyDict) (k : String) : Option JValue :=
  match PyDict.get d k with
  | some .null => none
  | some v => some v
  | none => none

/-- The unconditional head of the status dict built by `_format_status`:
identifier, name, and the four on/off truthiness-derived fields. -/
def baseStatus (device : PyDict) : PyDict :=
  [("device_id", jGet device "deviceId"),
   ("name", jGet device "displayName"),
   ("power", .str (if pyTruthy (jGet device "active") ||
                      pyTruthy (jGet device "heatOn") then "on" else "off")),
   ("lights", .str (if pyTruthy (jGet device "light") then "on" else "off")),
   ("fan", .str (if pyTruthy (jGet device "fan") then "on" else "off")),
   ("steamer", .str (if pyTruthy (jGet device "steamEn") ||
                        pyTruthy (jGet device "steamOn") then "on" else "off"))]

/-- The `targetTemp` block of `_format_status`. -/
def addTargetTemp (device : PyDict) (st : PyDict) : Except PyErr PyDict :=
  match optField device "targetTemp" with
  | some v => do
      let c ← pyToRat v
      pure (st ++ [("target_temperature_f", .float (c_to_f c)),
                   ("target_temperature_c", v)])
  | none => pure st

/-- The `temperature` block of `_format_status`. -/
def addCurrentTemp (device : PyDict) (st : PyDict) : Except PyErr PyDict :=
  match optField device "temperature" with
  | some v => do
      let c ← pyToRat v
      pure (st ++ [("current_temperature_f", .float (c_to_f c)),
                   ("current_temperature_c", v)])
  | none => pure st

/-- The copy-if-present blocks of `_format_status` (humidity, target
humidity, remaining time). -/
def addSimple (device : PyDict) (k outKey : String) (st : PyDict) : PyDict :=
  match optField device k with
  | some v => st ++ [(outKey, v)]
  | none => st

/-- The `statusCodes` block of `_format_status`:
`int(str(status_codes)[1])` — `IndexError` when the string form has fewer
than two characters, `ValueError` when the second character is not a
decimal digit (ASCII digits modelled) — then door open iff the digit
is 9. -/
def addDoor (device : PyDict) (st : PyDict) : Except PyErr PyDict :=
  match optField device "statusCodes" with
  | some v =>
      match (pyStr v).data.get? 1 with
      | none => .error .indexError
      | some c =>
          if c.isDigit then
            .ok (st ++ [("door",
              .str (if c.toNat - 48 = 9 then "open" else "closed"))])
          else .error (.valueError "invalid literal for int() with base 10")
  | none => .ok st

/-- `server._format_status`, as the composition of its blocks in source
order. -/
def format_status (device : PyDict) : Except PyErr PyDict := do
  let st := baseStatus device
  let st ← addTargetTemp device st
  let st ← addCurrentTemp device st
  let st := addSimple device "humidity" "humidity_pct" st
  let st := addSimple device "targetRh" "target_humidity_pct" st
  let st := addSimple device "remainingTime" "remaining_time_min" st
  addDoor device st

/-- `[_format_status(d) for d in devices]`: the first failure aborts the
whole comprehension. -/
def formatAll : List PyDict → Except PyErr (List PyDict)
  | [] => .ok []
  | d :: ds => do
      let st ← format_status d
      let rest ← formatAll ds
      pure (st :: rest)

/-- `str(e)` of a raised exception, simplified to a per-kind message (the
tools only interpolate it into an `error` string). -/
def pyErrStr : PyErr → String
  | .http => "HTTP error"
  | .jsonDecode => "Expecting value"
  | .typeError => "TypeError"
  | .keyError k => squote ++ k ++ squote
  | .indexError => "string index out of range"
  | .valueError msg => msg
  | .authError => "authentication failed"

/-- The `list_devices` tool: format every device, or surface the first
failure as a single `\x7berror: message\x7d` element. -/
def list_devices_tool (env : Env) (s : ClientState) :
    ClientState × List PyDict :=
  let (s1, r) := list_devices_api env s
  match r with
  | .error e =>
      (s1, [[("error", .str ("Failed to list devices: " ++ pyErrStr e))]])
  | .ok devs =>
      match formatAll devs with
      | .ok sts => (s1, sts)
      | .error e =>
          (s1, [[("error", .str ("Failed to list devices: " ++ pyErrStr e))]])

/-- The fall-through of `_resolve_device_id`: list the devices and take
the first one's `deviceId`, raising `ValueError` on an empty account. -/
def resolveFirst (env : Env) (s : ClientState) :
    ClientState × Except PyErr JValue :=
  let (s1, r) := list_devices_api env s
  match r with
  | .error e => (s1, .error e)
  | .ok [] => (s1, .error (.valueError "No sauna devices found on this account"))
  | .ok (d :: _) =>
      match PyDict.get d "deviceId" with
      | some v => (s1, .ok v)
      | none => (s1, .error (.keyError "deviceId"))

/-- `server._resolve_device_id`: a truthy (non-empty) device id is
returned as-is; `None` and the empty string both fall through to the
first listed device. -/
def resolve_device_id (env : Env) (s : ClientState)
    (deviceId : Option String) : ClientState × Except PyErr JValue :=
  match deviceId with
  | some d => if d = "" then resolveFirst env s else (s, .ok (.str d))
  | none => resolveFirst env s

/-- The `get_sauna_status` tool: resolve the device, fetch state and
telemetry, merge (telemetry last, then the resolved id), and format;
any failure becomes an `\x7berror: message\x7d` dict. -/
def get_sauna_status_tool (env : Env) (s : ClientState)
    (deviceId : Option String) : ClientState × PyDict :=
  let err := fun (s1 : ClientState) (e : PyErr) =>
    (s1, [("error", .str ("Failed to get status: " ++ pyErrStr e))])
  let (s1, r1) := resolve_device_id env s deviceId
  match r1 with
  | .error e => err s1 e
  | .ok did =>
      let (s2, r2) := get_device_state env s1 did
      match r2 with
      | .error e => err s2 e
      | .ok stateV =>
          let (s3, r3) := get_latest_data env s2 did
          match r3 with
          | .error e => err s3 e
          | .ok latest =>
              match asObj stateV with
              | .error e => err s3 e
              | .ok state =>
                  match format_status (mergeDevice state latest did) with
                  | .ok st => (s3, st)
                  | .error e => err s3 e

/-- The body of the `set_temperature` tool after the range check passed:
resolve the device and send the `targetTemp` state change. -/
def set_temperature_proceed (env : Env) (s : ClientState) (celsius : Int)
    (deviceId : Option String) (temperature : Rat) : ClientState × PyDict :=
  let err := fun (s1 : ClientState) (e : PyErr) =>
    (s1, [("error", .str ("Failed to set temperature: " ++ pyErrStr e))])
  let (s1, r1) := resolve_device_id env s deviceId
  match r1 with
  | .error e => err s1 e
  | .ok did =>
      let (s2, r2) := send_state_change env s1 did (.obj [("targetTemp", .int celsius)])
      match r2 with
      | .error e => err s2 e
      | .ok _ =>
          (s2, [("status", .str "ok"),
                ("device_id", did),
                ("target_temperature_f", .float temperature),
                ("target_temperature_c", .int celsius)])

/-- The `set_temperature` tool: out-of-range Fahrenheit inputs are turned
into a validation-error dict before the device is resolved or any request
is issued; in-range inputs are converted with `_f_to_c` and forwarded. -/
def set_temperature_tool (env : Env) (s : ClientState) (temperature : Rat)
    (deviceId : Option String) : ClientState × PyDict :=
  if temperature < 104 ∨ 230 < temperature then
    (s, [("error", .str "Temperature must be between 104°F and 230°F (40-110°C)")])
  else
    set_temperature_proceed env s (f_to_c temperature) deviceId temperature

/-- The longest prefix of the service list whose discovery fetches all
succeed, as directory entries. -/
def okPrefix (env : Env) : List String → List (String × JValue)
  | [] => []
  | n :: rest =>
      match env.endpointResp n with
      | .ok v => (n, v) :: okPrefix env rest
      | .error _ => []

/-- The error of the first failing discovery fetch, if any. -/
def firstErr (env : Env) : List String → Option PyErr
  | [] => none
  | n :: rest =>
      match env.endpointResp n with
      | .ok _ => firstErr env rest
      | .error e => some e

/-- A fixed token triple for concrete evaluations. -/
def demoTriple : TokenTriple :=
  { access_token := "acc-token", refresh_token := "refresh-token",
    id_token := "id-token" }

/-- A discovery descriptor for concrete evaluations. -/
def demoDescriptor (name : String) : JValue :=
  .obj [("endpoint", .str ("https://backend.test/" ++ name ++ "/graphql"))]

/-- A device-tree response whose embedded tree payload decodes empty. -/
def demoTreeEmptyResp : JValue :=
  .obj [("data", .obj [("getDeviceTree", .str "[]")])]

/-- Environment of an account with zero devices: every exchange succeeds
and the device tree decodes to the empty list. -/
def demoEnv : Env :=
  { endpointResp := fun n => .ok (demoDescriptor n)
    signIn := .ok demoTriple
    renew := fun t => .ok t
    http := fun _ => .ok demoTreeEmptyResp
    loads := fun s => if s = "[]" then .ok (.arr []) else .error .jsonDecode }

/-- Environment whose `events` discovery fetch fails (the first two
services succeed). -/
def demoFailEnv : Env :=
  { demoEnv with
    endpointResp := fun n =>
      if n = "events" then .error .http else .ok (demoDescriptor n) }

/-- The decoded device tree of a one-device account: a single root with
one child named `sauna1`. -/
def demoTree : JValue :=
  .arr [.obj [("c", .arr [.obj [("i", .obj [("name", .str "sauna1")])]])]]

/-- Environment of an account with one device `sauna1`: the HTTP oracle
dispatches on the request body, and the embedded JSON payloads `T` (the
tree), `S` (reported state) and `L` (telemetry data) decode to fixed
values. -/
def demoOneEnv : Env :=
  { endpointResp := fun n => .ok (demoDescriptor n)
    signIn := .ok demoTriple
    renew := fun t => .ok t
    http := fun req =>
      match pySubscript req.body "query" with
      | .ok (.str qs) =>
          if qs = treeQueryString then
            .ok (.obj [("data", .obj [("getDeviceTree", .str "T")])])
          else if qs = stateQueryString then
            .ok (.obj [("data", .obj [("getDeviceState",
              .obj [("reported", .str "S")])])])
          else if qs = latestQueryString then
            .ok (.obj [("data", .obj [("getLatestData",
              .obj [("data", .str "L"), ("timestamp", .int 1000),
                    ("type", .str "sample")])])])
          else .ok (.obj [("data", .null)])
      | _ => .error .http
    loads := fun s =>
      if s = "T" then .ok demoTree
      else if s = "S" then .ok (.obj [("power", .int 1)])
      else if s = "L" then .ok (.obj [("power", .int 0), ("temperature", .int 69)])
      else .error .jsonDecode }

/-- Whether an embedded computation succeeded. -/
def exceptIsOk {α : Type} : Except PyErr α → Bool
  | .ok _ => true
  | .error _ => false

/-- The field `k` of a device record is absent, `None`, or numeric — the
precondition for the `_c_to_f` conversions of `_format_status` to pass. -/
def numOk (device : PyDict) (k : String) : Bool :=
  match optField device k with
  | none => true
  | some v => exceptIsOk (pyToRat v)

/-- Like `demoOneEnv`, but the reported state carries a one-character
`statusCodes` value, on which `_format_status` fails. -/
def demoBadEnv : Env :=
  { demoOneEnv with
    loads := fun s =>
      if s = "T" then .ok demoTree
      else if s = "S" then .ok (.obj [("statusCodes", .str "5")])
      else if s = "L" then .ok (.obj [("power", .int 0)])
      else .error .jsonDecode }

/-- The state of a client connected against `demoEnv`. -/
def demoConn : ClientState := (connect demoEnv initState).1

/-- The state of a client connected against `demoOneEnv`. -/
def demoOneConn : ClientState := (connect demoOneEnv initState).1

/-- The state of a client connected against `demoBadEnv`. -/
def demoBadConn : ClientState := (connect demoBadEnv initState).1

/-- The one device record produced by listing against `demoOneEnv`. -/
def demoMerged : PyDict :=
  mergeDevice [("power", .int 1)]
    [("power", .int 0), ("temperature", .int 69), ("timestamp", .int 1000),
     ("type", .str "sample")]
    (.str "sauna1")

/-- Dict lookup distributes over concatenation, preferring the right
(later-written) operand. -/
theorem PyDict.get_append (a b : PyDict) (k : String) :
    PyDict.get (a ++ b) k = (PyDict.get b k).or (PyDict.get a k) := by
  unfold PyDict.get
  rw [List.reverse_append, List.find?_append]
  cases b.reverse.find? (fun p => p.1 == k) <;> simp

/-- C1: in the merged record `\x7b**state, **latest, "deviceId": id\x7d`
built by `list_devices` and `get_sauna_status`, every telemetry key other
than the identifier maps to the telemetry value (telemetry wins over
reported state), and `deviceId` always maps to the device-tree-derived
identifier, whatever either payload says. -/
theorem merge_telemetry_wins (state latest : List (String × JValue))
    (deviceId : JValue) (k : String) (v : JValue) :
    (k ≠ "deviceId" → PyDict.get latest k = some v →
      PyDict.get (mergeDevice state latest deviceId) k = some v) ∧
    PyDict.get (mergeDevice state latest deviceId) "deviceId" =
      some deviceId := by
  have hassoc : mergeDevice state latest deviceId =
      (state ++ latest) ++ [("deviceId", deviceId)] := by
    simp [mergeDevice]
  constructor
  · intro hk hv
    rw [hassoc, PyDict.get_append]
    have hne : (("deviceId" : String) == k) = false := by
      rw [beq_eq_false_iff_ne]
      exact fun h => hk h.symm
    have hsing : PyDict.get [("deviceId", deviceId)] k = none := by
      simp [PyDict.get, List.find?, hne]
    rw [hsing, Option.none_or, PyDict.get_append, hv]
    rfl
  · rw [hassoc, PyDict.get_append]
    simp [PyDict.get, List.find?]

/-- C1 witness: the merge of the spec's example mappings, at the key
`power` and at the identifier. -/
theorem merge_telemetry_wins_witness :
    PyDict.get (mergeDevice [("power", JValue.int 1)]
      [("power", JValue.int 0), ("timestamp", JValue.int 1000),
       ("type", JValue.str "sample")] (.str "sauna1")) "power" =
        some (JValue.int 0) ∧
    PyDict.get (mergeDevice [("power", JValue.int 1)]
      [("power", JValue.int 0), ("timestamp", JValue.int 1000),
       ("type", JValue.str "sample")] (.str "sauna1")) "deviceId" =
        some (JValue.str "sauna1") :=
  ⟨(merge_telemetry_wins _ _ _ "power" (JValue.int 0)).1 (by decide) rfl,
   (merge_telemetry_wins _ _ _ "power" (JValue.int 0)).2⟩

/-- The discovery loop accumulates exactly the successful prefix and
reports the first failure. -/
theorem fetchLoop_spec (env : Env) (acc : List (String × JValue))
    (names : List String) :
    fetchLoop env acc names =
      (acc ++ okPrefix env names,
       match firstErr env names with
       | none => .ok ()
       | some e => .error e) := by
  induction names generalizing acc with
  | nil => simp [fetchLoop, okPrefix, firstErr]
  | cons n rest ih =>
      cases h : env.endpointResp n with
      | ok v => simp [fetchLoop, okPrefix, firstErr, h, ih]
      | error e => simp [fetchLoop, okPrefix, firstErr, h]

/-- C3 counterexample: with the `events` fetch failing, discovery fails
as a whole but the Endpoint Directory retains the two entries fetched
before the failure — a nonempty proper subset, contradicting "no subset
of the four entries is retained". -/
theorem fetch_endpoints_partial_cex :
    (fetchEndpoints demoFailEnv initState).2 = .error .http ∧
    (fetchEndpoints demoFailEnv initState).1.endpoints =
      some [("users", demoDescriptor "users"),
            ("device", demoDescriptor "device")] ∧
    [("users", demoDescriptor "users"), ("device", demoDescriptor "device")] ≠
      ([] : List (String × JValue)) :=
  ⟨rfl, rfl, by simp⟩

/-- C3 amended: if fetching or decoding the endpoint descriptor of any of
the four services fails, the whole discovery operation fails with that
first error, and the Endpoint Directory is left holding exactly the
entries of the services fetched successfully before the failure. -/
theorem fetch_endpoints_fail_keeps_earlier (env : Env) (s : ClientState)
    (e : PyErr) (h : firstErr env serviceNames = some e) :
    (fetchEndpoints env s).2 = .error e ∧
    (fetchEndpoints env s).1.endpoints = some (okPrefix env serviceNames) := by
  unfold fetchEndpoints
  rw [fetchLoop_spec, h]
  exact ⟨rfl, rfl⟩

/-- C3 amended witness: the failing-discovery environment satisfies the
hypothesis and the directory keeps the successful prefix. -/
theorem fetch_endpoints_fail_keeps_earlier_witness :
    firstErr demoFailEnv serviceNames = some .http ∧
    (fetchEndpoints demoFailEnv initState).2 = .error .http ∧
    (fetchEndpoints demoFailEnv initState).1.endpoints =
      some (okPrefix demoFailEnv serviceNames) :=
  ⟨rfl, (fetch_endpoints_fail_keeps_earlier demoFailEnv initState .http rfl).1,
   (fetch_endpoints_fail_keeps_earlier demoFailEnv initState .http rfl).2⟩

/-- Endpoint discovery touches only the endpoint directory: tokens, the
sign-in count and the request trace are untouched. -/
theorem fetchEndpoints_preserves (env : Env) (s : ClientState) :
    (fetchEndpoints env s).1.tokenData = s.tokenData ∧
    (fetchEndpoints env s).1.signInCount = s.signInCount ∧
    (fetchEndpoints env s).1.requests = s.requests := by
  unfold fetchEndpoints
  rw [fetchLoop_spec]
  exact ⟨rfl, rfl, rfl⟩

/-- `_authenticate` is a no-op once the credential triple is held. -/
theorem authenticate_of_some (env : Env) (s : ClientState) (t : TokenTriple)
    (h : s.tokenData = some t) : authenticate env s = (s, .ok ()) := by
  simp [authenticate, h]

/-- `_id_token` on an authenticated client performs no sign-in exchange
and keeps a credential triple held. -/
theorem idToken_of_some (env : Env) (s : ClientState) (t : TokenTriple)
    (h : s.tokenData = some t) :
    (idToken env s).1.signInCount = s.signInCount ∧
    ∃ t2, (idToken env s).1.tokenData = some t2 := by
  have ha := authenticate_of_some env s t h
  cases hr : env.renew t with
  | ok t2 =>
      refine ⟨?_, t2, ?_⟩ <;> simp [idToken, refreshTokens, ha, h, hr]
  | error e =>
      refine ⟨?_, t, ?_⟩ <;> simp [idToken, refreshTokens, ha, h, hr]

/-- `_id_token` on an unauthenticated client performs exactly one
(successful) sign-in exchange and ends up holding a credential triple. -/
theorem idToken_of_none_ok (env : Env) (s : ClientState) (t : TokenTriple)
    (hn : s.tokenData = none) (hs : env.signIn = .ok t) :
    (idToken env s).1.signInCount = s.signInCount + 1 ∧
    ∃ t2, (idToken env s).1.tokenData = some t2 := by
  cases hr : env.renew t with
  | ok t2 =>
      refine ⟨?_, t2, ?_⟩ <;>
        simp [idToken, refreshTokens, authenticate, hn, hs, hr]
  | error e =>
      refine ⟨?_, t, ?_⟩ <;>
        simp [idToken, refreshTokens, authenticate, hn, hs, hr]

/-- C4: the token-fetch path used before every privileged call is
idempotent with respect to sign-in — two immediate calls of `_id_token`
perform at most one sign-in exchange (when a sign-in exchange, if
attempted, succeeds), because `_authenticate` is a no-op once the
credential triple is held. -/
theorem ensure_fresh_token_idempotent (env : Env) (s : ClientState)
    (t : TokenTriple) (hs : env.signIn = .ok t) :
    (idToken env (idToken env s).1).1.signInCount ≤ s.signInCount + 1 := by
  cases h : s.tokenData with
  | none =>
      obtain ⟨h1, t2, h2⟩ := idToken_of_none_ok env s t h hs
      obtain ⟨h3, -⟩ := idToken_of_some env _ t2 h2
      omega
  | some t0 =>
      obtain ⟨h1, t2, h2⟩ := idToken_of_some env s t0 h
      obtain ⟨h3, -⟩ := idToken_of_some env _ t2 h2
      omega

/-- C4 witness: two immediate token fetches on a fresh client against the
zero-device environment. -/
theorem ensure_fresh_token_idempotent_witness :
    demoEnv.signIn = .ok demoTriple ∧
    (idToken demoEnv (idToken demoEnv initState).1).1.signInCount ≤
      initState.signInCount + 1 :=
  ⟨rfl, ensure_fresh_token_idempotent demoEnv initState demoTriple rfl⟩

/-- `_authenticate` on an unauthenticated client with a succeeding
sign-in captures the triple and counts one exchange. -/
theorem authenticate_of_none_ok (env : Env) (s : ClientState)
    (t : TokenTriple) (hn : s.tokenData = none) (hs : env.signIn = .ok t) :
    authenticate env s =
      ({ s with tokenData := some t, signInCount := s.signInCount + 1 },
       .ok ()) := by
  simp [authenticate, hn, hs]

/-- `_authenticate` on an unauthenticated client with a failing sign-in
surfaces the error (one exchange attempted, no triple captured). -/
theorem authenticate_of_none_err (env : Env) (s : ClientState)
    (e : PyErr) (hn : s.tokenData = none) (hs : env.signIn = .error e) :
    authenticate env s =
      ({ s with signInCount := s.signInCount + 1 }, .error e) := by
  simp [authenticate, hn, hs]

/-- `_post` on an authenticated client performs no sign-in exchange. -/
theorem post_signInCount_of_some (env : Env) (s : ClientState)
    (t : TokenTriple) (h : s.tokenData = some t) (key : String) (q : JValue) :
    (post env s key q).1.signInCount = s.signInCount := by
  obtain ⟨hc, -⟩ := idToken_of_some env s t h
  rcases hit : idToken env s with ⟨s1, rt⟩
  rw [hit] at hc
  simp only [post, hit]
  repeat' split
  all_goals exact hc

/-- C2 counterexample: on a fresh client against an all-successful
environment, `connect` (startup) itself performs a sign-in exchange — the
count of sign-in exchanges right after startup is 1, not 0. -/
theorem connect_authenticates_eagerly_cex :
    (connect demoEnv initState).1.signInCount = 1 ∧
    (connect demoEnv initState).1.signInCount ≠ 0 :=
  ⟨rfl, by decide⟩

/-- C2 amended: client startup performs the first sign-in eagerly —
`connect` opens the session, discovers endpoints, and then performs one
sign-in exchange itself; privileged calls made afterwards perform no
further sign-in, because `_authenticate` is a no-op once the credential
triple is held. -/
theorem connect_signs_in_eagerly (env : Env) (s : ClientState)
    (hTok : s.tokenData = none) (hOk : (connect env s).2 = .ok ()) :
    (connect env s).1.signInCount = s.signInCount + 1 ∧
    (∃ t, (connect env s).1.tokenData = some t) ∧
    ∀ key q, (post env (connect env s).1 key q).1.signInCount =
      s.signInCount + 1 := by
  rcases hfe : fetchEndpoints env { s with sessionOpen := true } with ⟨s1, r1⟩
  have hfp := fetchEndpoints_preserves env { s with sessionOpen := true }
  rw [hfe] at hfp
  have hft : s1.tokenData = none := by
    have h1 : s1.tokenData = s.tokenData := hfp.1
    rw [h1, hTok]
  have hfc : s1.signInCount = s.signInCount := hfp.2.1
  clear hfp
  simp only [connect] at hOk ⊢
  rw [hfe] at hOk ⊢
  clear hfe
  cases r1 with
  | error e => simp at hOk
  | ok u =>
      dsimp only at hOk ⊢
      cases hsi : env.signIn with
      | error e =>
          rw [authenticate_of_none_err env s1 e hft hsi] at hOk
          simp at hOk
      | ok t =>
          rw [authenticate_of_none_ok env s1 t hft hsi] at hOk ⊢
          refine ⟨?_, ⟨t, rfl⟩, ?_⟩
          · show s1.signInCount + 1 = s.signInCount + 1
            rw [hfc]
          · intro key q
            rw [post_signInCount_of_some env
              { s1 with tokenData := some t, signInCount := s1.signInCount + 1 }
              t rfl key q]
            show s1.signInCount + 1 = s.signInCount + 1
            rw [hfc]

/-- C2 amended witness: a fresh client connecting against the
zero-device environment signs in once during `connect`, and a subsequent
GraphQL POST adds no further sign-in. -/
theorem connect_signs_in_eagerly_witness :
    initState.tokenData = none ∧
    (connect demoEnv initState).2 = .ok () ∧
    (connect demoEnv initState).1.signInCount = initState.signInCount + 1 ∧
    (post demoEnv (connect demoEnv initState).1 "device" treeQuery).1.signInCount =
      initState.signInCount + 1 :=
  ⟨rfl, rfl, (connect_signs_in_eagerly demoEnv initState rfl rfl).1,
   (connect_signs_in_eagerly demoEnv initState rfl rfl).2.2 "device" treeQuery⟩

/-- `_authenticate` never touches the session, directory or request
trace. -/
theorem authenticate_preserves (env : Env) (s : ClientState) :
    (authenticate env s).1.requests = s.requests ∧
    (authenticate env s).1.endpoints = s.endpoints ∧
    (authenticate env s).1.sessionOpen = s.sessionOpen := by
  unfold authenticate
  repeat' split
  all_goals exact ⟨rfl, rfl, rfl⟩

/-- `_refresh_tokens` never touches the session, directory or request
trace. -/
theorem refreshTokens_preserves (env : Env) (s : ClientState) :
    (refreshTokens env s).1.requests = s.requests ∧
    (refreshTokens env s).1.endpoints = s.endpoints ∧
    (refreshTokens env s).1.sessionOpen = s.sessionOpen := by
  rcases hau : authenticate env s with ⟨s1, r1⟩
  have ha := authenticate_preserves env s
  rw [hau] at ha
  obtain ⟨h1, h2, h3⟩ := ha
  simp only [refreshTokens, hau]
  repeat' split
  all_goals exact ⟨h1, h2, h3⟩

/-- `_id_token` never touches the session, directory or request trace. -/
theorem idToken_preserves (env : Env) (s : ClientState) :
    (idToken env s).1.requests = s.requests ∧
    (idToken env s).1.endpoints = s.endpoints ∧
    (idToken env s).1.sessionOpen = s.sessionOpen := by
  rcases hrt : refreshTokens env s with ⟨s1, r1⟩
  have hr := refreshTokens_preserves env s
  rw [hrt] at hr
  obtain ⟨h1, h2, h3⟩ := hr
  simp only [idToken, hrt]
  repeat' split
  all_goals exact ⟨h1, h2, h3⟩

/-- A successful `_id_token` returns exactly the identity token of the
triple the client ends up holding. -/
theorem idToken_ok_token (env : Env) (s : ClientState) (tok : String)
    (h : (idToken env s).2 = .ok tok) :
    ∃ t, (idToken env s).1.tokenData = some t ∧ tok = t.id_token := by
  rcases hrt : refreshTokens env s with ⟨s1, r⟩
  simp only [idToken, hrt] at h ⊢
  cases r with
  | error e => simp at h
  | ok u =>
      dsimp only at h ⊢
      cases ht : s1.tokenData with
      | none => rw [ht] at h; simp at h
      | some t =>
          rw [ht] at h ⊢
          simp at h
          exact ⟨t, rfl, h.symm⟩

/-- C8: every GraphQL request issued by `_post` carries an
`authorization` header whose value is exactly the raw identity token
held by the client (not Bearer-prefixed), and the decoded JSON response
body is returned unmodified — whatever it contains, including any
`errors` array. -/
theorem post_raw_auth_header (env : Env) (s : ClientState) (key : String)
    (q : JValue) (body : JValue) (hOk : (post env s key q).2 = .ok body) :
    ∃ req t, (post env s key q).1.requests = s.requests ++ [req] ∧
      (post env s key q).1.tokenData = some t ∧
      req.headers = [("authorization", t.id_token)] ∧
      req.body = q ∧
      env.http req = .ok body := by
  have hpres := idToken_preserves env s
  rcases hit : idToken env s with ⟨s1, rt⟩
  rw [hit] at hpres
  have hreq : s1.requests = s.requests := hpres.1
  clear hpres
  simp only [post, hit] at hOk ⊢
  cases rt with
  | error e => simp at hOk
  | ok token =>
      dsimp only at hOk ⊢
      obtain ⟨t, htd, htok⟩ := idToken_ok_token env s token (by rw [hit])
      rw [hit] at htd
      cases heps : s1.endpoints with
      | none => rw [heps] at hOk; simp at hOk
      | some eps =>
          rw [heps] at hOk
          dsimp only at hOk ⊢
          cases hg : PyDict.get eps key with
          | none => rw [hg] at hOk; simp at hOk
          | some desc =>
              rw [hg] at hOk
              dsimp only at hOk ⊢
              cases hsub : pySubscript desc "endpoint" with
              | error e => rw [hsub] at hOk; simp at hOk
              | ok url =>
                  rw [hsub] at hOk
                  dsimp only at hOk ⊢
                  cases hh : env.http
                      (⟨url, [("authorization", token)], q⟩ : HttpRequest) with
                  | error e => rw [hh] at hOk; simp at hOk
                  | ok b =>
                      rw [hh] at hOk
                      dsimp only at hOk ⊢
                      have hb : b = body := by simpa using hOk
                      refine ⟨(⟨url, [("authorization", token)], q⟩ :
                        HttpRequest), t, ?_, ?_, ?_, rfl, ?_⟩
                      · show s1.requests ++ _ = s.requests ++ _
                        rw [hreq]
                      · exact htd
                      · rw [htok]
                      · rw [hh, hb]

/-- C8 witness: the tree query POSTed against the zero-device
environment. -/
theorem post_raw_auth_header_witness :
    (post demoEnv demoConn "device" treeQuery).2 = .ok demoTreeEmptyResp ∧
    ∃ req t,
      (post demoEnv demoConn "device" treeQuery).1.requests =
        demoConn.requests ++ [req] ∧
      (post demoEnv demoConn "device" treeQuery).1.tokenData = some t ∧
      req.headers = [("authorization", t.id_token)] ∧
      req.body = treeQuery ∧
      demoEnv.http req = .ok demoTreeEmptyResp :=
  ⟨rfl, post_raw_auth_header demoEnv demoConn "device" treeQuery
    demoTreeEmptyResp rfl⟩

/-- C5: an in-range Fahrenheit input (104 ≤ F ≤ 230) is converted to
Celsius as `round((F - 32) * 5 / 9)` and forwarded; an out-of-range input
is answered with the validation-error dict with the client state
untouched — no device resolution and no state-change request happens. -/
theorem set_temperature_range_spec (env : Env) (s : ClientState)
    (temperature : Rat) (deviceId : Option String) :
    (104 ≤ temperature ∧ temperature ≤ 230 →
      set_temperature_tool env s temperature deviceId =
        set_temperature_proceed env s (pyRound ((temperature - 32) * 5 / 9))
          deviceId temperature) ∧
    (temperature < 104 ∨ 230 < temperature →
      set_temperature_tool env s temperature deviceId =
        (s, [("error",
          .str "Temperature must be between 104°F and 230°F (40-110°C)")])) := by
  constructor
  · rintro ⟨h1, h2⟩
    have hno : ¬(temperature < 104 ∨ 230 < temperature) := by
      push_neg
      exact ⟨h1, h2⟩
    rw [set_temperature_tool, if_neg hno]
    rfl
  · intro h
    rw [set_temperature_tool, if_pos h]

/-- C5 witness: 158 °F is in range and forwarded as
`round((158 - 32) * 5 / 9) = 70` °C; 100 °F is rejected as-is with the
state untouched. -/
theorem set_temperature_range_spec_witness :
    (104 ≤ (158 : Rat) ∧ (158 : Rat) ≤ 230) ∧
    set_temperature_tool demoOneEnv initState 158 none =
      set_temperature_proceed demoOneEnv initState
        (pyRound (((158 : Rat) - 32) * 5 / 9)) none 158 ∧
    ((100 : Rat) < 104 ∨ 230 < (100 : Rat)) ∧
    set_temperature_tool demoOneEnv initState 100 none =
      (initState, [("error",
        .str "Temperature must be between 104°F and 230°F (40-110°C)")]) :=
  ⟨⟨by norm_num, by norm_num⟩,
   (set_temperature_range_spec demoOneEnv initState 158 none).1
     ⟨by norm_num, by norm_num⟩,
   Or.inl (by norm_num),
   (set_temperature_range_spec demoOneEnv initState 100 none).2
     (Or.inl (by norm_num))⟩

/-- C6: when the device tree decodes to an empty (falsy) value,
`list_devices` returns the empty list — no error — and the client state
is exactly the state after the single tree query: no per-device state or
telemetry fetch is issued. -/
theorem list_devices_empty_tree (env : Env) (s : ClientState)
    (treeResp : JValue) (payload : String) (tree : JValue)
    (hPost : (post env s "device" treeQuery).2 = .ok treeResp)
    (hField : pySubscript2 treeResp "data" "getDeviceTree" =
      .ok (.str payload))
    (hLoads : env.loads payload = .ok tree)
    (hEmpty : pyTruthy tree = false) :
    list_devices_api env s = ((post env s "device" treeQuery).1, .ok []) := by
  rcases hp : post env s "device" treeQuery with ⟨s1, r⟩
  rw [hp] at hPost
  simp only [list_devices_api, hp]
  cases r with
  | error e => simp at hPost
  | ok resp =>
      have hresp : resp = treeResp := by simpa using hPost
      subst hresp
      dsimp only
      rw [hField]
      dsimp only [loadsField]
      rw [hLoads]
      dsimp only
      rw [hEmpty]
      simp

/-- C6 witness: the zero-device environment's tree payload decodes to the
empty list, and listing returns `[]` after just the tree query. -/
theorem list_devices_empty_tree_witness :
    (post demoEnv demoConn "device" treeQuery).2 = .ok demoTreeEmptyResp ∧
    pySubscript2 demoTreeEmptyResp "data" "getDeviceTree" = .ok (.str "[]") ∧
    demoEnv.loads "[]" = .ok (.arr []) ∧
    pyTruthy (.arr []) = false ∧
    list_devices_api demoEnv demoConn =
      ((post demoEnv demoConn "device" treeQuery).1, .ok []) :=
  ⟨rfl, rfl, rfl, rfl,
   list_devices_empty_tree demoEnv demoConn demoTreeEmptyResp "[]"
     (.arr []) rfl rfl rfl rfl⟩

/-- Bind on a successful embedded computation. -/
theorem exceptBind_ok {α β : Type} (a : α) (f : α → Except PyErr β) :
    (Except.ok a >>= f) = f a := rfl

/-- For a decimal digit, the parsed value is 9 exactly for the character
9. -/
theorem digit_char_eq_nine (c : Char) (h : c.isDigit = true) :
    (c.toNat - 48 = 9) ↔ c = '9' := by
  constructor
  · intro h9
    simp [Char.isDigit] at h
    obtain ⟨h1, h2⟩ := h
    have hge : 48 ≤ c.toNat := UInt32.le_toNat_of_le (by norm_num) h1
    have ht : c.toNat = 57 := by omega
    have hc := Char.ofNat_toNat c
    rw [ht] at hc
    rw [← hc]
  · intro h9
    subst h9
    rfl

/-- The `targetTemp` block succeeds when the field is absent or numeric. -/
theorem addTargetTemp_ok (device : PyDict) (st : PyDict)
    (h : numOk device "targetTemp" = true) :
    ∃ st2, addTargetTemp device st = .ok st2 := by
  unfold numOk at h
  unfold addTargetTemp
  cases ho : optField device "targetTemp" with
  | none => exact ⟨st, rfl⟩
  | some v =>
      rw [ho] at h
      dsimp only at h ⊢
      cases hr : pyToRat v with
      | error e => rw [hr] at h; simp [exceptIsOk] at h
      | ok c =>
          refine ⟨st ++ [("target_temperature_f", .float (c_to_f c)),
            ("target_temperature_c", v)], ?_⟩
          rfl

/-- The `temperature` block succeeds when the field is absent or
numeric. -/
theorem addCurrentTemp_ok (device : PyDict) (st : PyDict)
    (h : numOk device "temperature" = true) :
    ∃ st2, addCurrentTemp device st = .ok st2 := by
  unfold numOk at h
  unfold addCurrentTemp
  cases ho : optField device "temperature" with
  | none => exact ⟨st, rfl⟩
  | some v =>
      rw [ho] at h
      dsimp only at h ⊢
      cases hr : pyToRat v with
      | error e => rw [hr] at h; simp [exceptIsOk] at h
      | ok c =>
          refine ⟨st ++ [("current_temperature_f", .float (c_to_f c)),
            ("current_temperature_c", v)], ?_⟩
          rfl

/-- The door block on a status-codes value whose second character is a
decimal digit: door open exactly for the digit 9. -/
theorem addDoor_digit (device : PyDict) (st : PyDict) (v : JValue) (c : Char)
    (hv : optField device "statusCodes" = some v)
    (hc : (pyStr v).data.get? 1 = some c)
    (hd : c.isDigit = true) :
    addDoor device st = .ok (st ++ [("door",
      .str (if c = '9' then "open" else "closed"))]) := by
  unfold addDoor
  rw [hv]
  dsimp only
  rw [hc]
  dsimp only
  simp [hd, digit_char_eq_nine c hd]

/-- The door block fails with `IndexError` when the string form of the
status-codes value has fewer than two characters. -/
theorem addDoor_short (device : PyDict) (st : PyDict) (v : JValue)
    (hv : optField device "statusCodes" = some v)
    (hlen : (pyStr v).data.length < 2) :
    addDoor device st = .error .indexError := by
  have hc : (pyStr v).data.get? 1 = none := by
    rw [List.get?_eq_none]
    omega
  unfold addDoor
  rw [hv]
  dsimp only
  rw [hc]

/-- The door block fails with `ValueError` when the second character of
the string form is not a decimal digit. -/
theorem addDoor_nondigit (device : PyDict) (st : PyDict) (v : JValue)
    (c : Char) (hv : optField device "statusCodes" = some v)
    (hc : (pyStr v).data.get? 1 = some c) (hd : c.isDigit = false) :
    addDoor device st =
      .error (.valueError "invalid literal for int() with base 10") := by
  unfold addDoor
  rw [hv]
  dsimp only
  rw [hc]
  dsimp only
  simp [hd]

/-- C7: for every device record with a status-codes field whose string
form has a decimal digit as its second character (the temperature fields,
if present, being numeric so that the earlier conversions pass),
`_format_status` succeeds and reports door state "open" when that
character is the digit 9 and "closed" for any other digit. -/
theorem door_state_from_second_digit (device : PyDict) (v : JValue)
    (c : Char)
    (hv : optField device "statusCodes" = some v)
    (hc : (pyStr v).data.get? 1 = some c)
    (hd : c.isDigit = true)
    (h1 : numOk device "targetTemp" = true)
    (h2 : numOk device "temperature" = true) :
    ∃ st, format_status device = .ok st ∧
      PyDict.get st "door" =
        some (.str (if c = '9' then "open" else "closed")) := by
  obtain ⟨st1, hst1⟩ := addTargetTemp_ok device (baseStatus device) h1
  obtain ⟨st2, hst2⟩ := addCurrentTemp_ok device st1 h2
  refine ⟨addSimple device "remainingTime" "remaining_time_min"
      (addSimple device "targetRh" "target_humidity_pct"
        (addSimple device "humidity" "humidity_pct" st2)) ++
      [("door", .str (if c = '9' then "open" else "closed"))], ?_, ?_⟩
  · simp only [format_status, hst1, exceptBind_ok, hst2]
    exact addDoor_digit device _ v c hv hc hd
  · rw [PyDict.get_append]
    simp [PyDict.get, List.find?]

/-- C7 witness: a record whose status codes read `19` has an open door; a
record whose status codes read `10` has a closed door. -/
theorem door_state_from_second_digit_witness :
    (∃ st, format_status [("statusCodes", JValue.str "19")] = .ok st ∧
      PyDict.get st "door" = some (.str "open")) ∧
    (∃ st, format_status [("statusCodes", JValue.str "10")] = .ok st ∧
      PyDict.get st "door" = some (.str "closed")) := by
  constructor
  · have h := door_state_from_second_digit
      [("statusCodes", JValue.str "19")] (JValue.str "19") '9'
      rfl rfl (by decide) rfl rfl
    simpa using h
  · have h := door_state_from_second_digit
      [("statusCodes", JValue.str "10")] (JValue.str "10") '0'
      rfl rfl (by decide) rfl rfl
    simpa using h

/-- C10: `_format_status` is partial on the status-codes field — a
present value whose string form is shorter than two characters raises
`IndexError`, and one whose second character is not a decimal digit
raises `ValueError` (the temperature fields, if present, being numeric so
the earlier conversions pass); the `list_devices` tool surfaces any such
failure as a single `\x7berror: message\x7d` element. -/
theorem format_status_bad_status_codes :
    (∀ device v, optField device "statusCodes" = some v →
      (pyStr v).data.length < 2 →
      numOk device "targetTemp" = true →
      numOk device "temperature" = true →
      format_status device = .error .indexError) ∧
    (∀ device v c, optField device "statusCodes" = some v →
      (pyStr v).data.get? 1 = some c → c.isDigit = false →
      numOk device "targetTemp" = true →
      numOk device "temperature" = true →
      format_status device =
        .error (.valueError "invalid literal for int() with base 10")) ∧
    (∀ env s devs e, (list_devices_api env s).2 = .ok devs →
      formatAll devs = .error e →
      (list_devices_tool env s).2 =
        [[("error", .str ("Failed to list devices: " ++ pyErrStr e))]]) := by
  refine ⟨?_, ?_, ?_⟩
  · intro device v hv hlen h1 h2
    obtain ⟨st1, hst1⟩ := addTargetTemp_ok device (baseStatus device) h1
    obtain ⟨st2, hst2⟩ := addCurrentTemp_ok device st1 h2
    simp only [format_status, hst1, exceptBind_ok, hst2]
    exact addDoor_short device _ v hv hlen
  · intro device v c hv hc hd h1 h2
    obtain ⟨st1, hst1⟩ := addTargetTemp_ok device (baseStatus device) h1
    obtain ⟨st2, hst2⟩ := addCurrentTemp_ok device st1 h2
    simp only [format_status, hst1, exceptBind_ok, hst2]
    exact addDoor_nondigit device _ v c hv hc hd
  · intro env s devs e hl' hfa
    rcases hl : list_devices_api env s with ⟨s1, r⟩
    rw [hl] at hl'
    have hr : r = .ok devs := by simpa using hl'
    subst hr
    simp only [list_devices_tool, hl]
    rw [hfa]

/-- C10 witness: one-character status codes raise `IndexError`, a
non-digit second character raises `ValueError`, and the listing tool
against the bad-status environment surfaces the failure as an error
dict. -/
theorem format_status_bad_status_codes_witness :
    format_status [("statusCodes", JValue.str "5")] = .error .indexError ∧
    format_status [("statusCodes", JValue.str "1x")] =
      .error (.valueError "invalid literal for int() with base 10") ∧
    (list_devices_tool demoBadEnv demoBadConn).2 =
      [[("error", .str ("Failed to list devices: " ++
        pyErrStr .indexError))]] :=
  ⟨format_status_bad_status_codes.1 [("statusCodes", JValue.str "5")]
     (JValue.str "5") rfl (by decide) rfl rfl,
   format_status_bad_status_codes.2.1 [("statusCodes", JValue.str "1x")]
     (JValue.str "1x") 'x' rfl rfl (by decide) rfl rfl,
   format_status_bad_status_codes.2.2 demoBadEnv demoBadConn _ _ rfl rfl⟩

/-- C9: at the tool interface an empty-string `device_id` behaves exactly
like an omitted one — resolution falls through to the first device in
`list_devices()` order — and the "no devices" `ValueError` is raised
precisely when the device listing succeeds with zero devices. -/
theorem resolve_device_id_empty_string (env : Env) (s : ClientState) :
    resolve_device_id env s (some "") = resolve_device_id env s none ∧
    (∀ devs, (list_devices_api env s).2 = .ok devs →
      (((resolve_device_id env s (some "")).2 =
          .error (.valueError "No sauna devices found on this account")) ↔
        devs = [])) ∧
    (∀ d ds v, (list_devices_api env s).2 = .ok (d :: ds) →
      PyDict.get d "deviceId" = some v →
      (resolve_device_id env s (some "")).2 = .ok v) := by
  have he : resolve_device_id env s (some "") = resolveFirst env s := by
    simp [resolve_device_id]
  refine ⟨by rw [he]; rfl, ?_, ?_⟩
  · intro devs hdevs
    rw [he]
    rcases hl : list_devices_api env s with ⟨s1, r⟩
    rw [hl] at hdevs
    have hr : r = .ok devs := by simpa using hdevs
    subst hr
    simp only [resolveFirst, hl]
    cases devs with
    | nil => simp
    | cons d ds =>
        dsimp only
        cases hg : PyDict.get d "deviceId" with
        | none => simp
        | some v => simp
  · intro d ds v hl' hg
    rw [he]
    rcases hl : list_devices_api env s with ⟨s1, r⟩
    rw [hl] at hl'
    have hr : r = .ok (d :: ds) := by simpa using hl'
    subst hr
    simp only [resolveFirst, hl]
    rw [hg]

/-- C9 witness: on the zero-device account the empty string resolves like
`None` and raises the "no devices" `ValueError`; on the one-device
account it resolves to the first listed device's identifier. -/
theorem resolve_device_id_empty_string_witness :
    ((list_devices_api demoEnv demoConn).2 = .ok ([] : List PyDict)) ∧
    resolve_device_id demoEnv demoConn (some "") =
      resolve_device_id demoEnv demoConn none ∧
    (resolve_device_id demoEnv demoConn (some "")).2 =
      .error (.valueError "No sauna devices found on this account") ∧
    ((list_devices_api demoOneEnv demoOneConn).2 = .ok [demoMerged]) ∧
    PyDict.get demoMerged "deviceId" = some (.str "sauna1") ∧
    (resolve_device_id demoOneEnv demoOneConn (some "")).2 =
      .ok (.str "sauna1") :=
  ⟨rfl,
   (resolve_device_id_empty_string demoEnv demoConn).1,
   ((resolve_device_id_empty_string demoEnv demoConn).2.1 [] rfl).2 rfl,
   rfl, rfl,
   (resolve_device_id_empty_string demoOneEnv demoOneConn).2.2
     demoMerged [] (.str "sauna1") rfl rfl⟩

end Harvia
